import Mathlib

/-!
Verification of the CryptoAuthLib AEAD provider path
(`src/providers/cryptoauthlib/aead.rs` of the parsec service).

The file shallowly embeds the data model and the two internal operations
`psa_aead_encrypt_internal` and `psa_aead_decrypt_internal`.  External
collaborators (the key-info store, the request validator from the
`parsec_interface` crate, and the `rust_cryptoauthlib` device driver) are
modelled as function fields of a `Provider` record, so theorems can
quantify over every possible collaborator behaviour.  Byte buffers are
`List Nat`; the `usize → u8` cast on the tag length is modelled as
`% 256`.  The one Rust behaviour that is not a value is the panic caused
by the unchecked `ciphertext.len() - tag_length` subtraction on the
decrypt path; decrypt therefore returns a dedicated outcome type with an
explicit `panic` constructor.
-/

/-- Mirrors `parsec_interface::operations::psa_algorithm::AeadWithDefaultLengthTag`. -/
inductive AeadWithDefaultLengthTag : Type
  | Ccm : AeadWithDefaultLengthTag
  | Gcm : AeadWithDefaultLengthTag
  | Chacha20Poly1305 : AeadWithDefaultLengthTag
deriving DecidableEq

/-- Mirrors `parsec_interface::operations::psa_algorithm::Aead`.
`tag_length` of the shortened variant is a Rust `usize`, modelled as `Nat`. -/
inductive Aead : Type
  | AeadWithDefaultLengthTag (alg : AeadWithDefaultLengthTag) : Aead
  | AeadWithShortenedTag (aead_alg : AeadWithDefaultLengthTag) (tag_length : Nat) : Aead
deriving DecidableEq

/-- The provider identity used when building the key triple. -/
inductive ProviderId : Type
  | Core : ProviderId
  | CryptoAuthLib : ProviderId
deriving DecidableEq

/-- Mirrors `KeyTriple::new(app_name, ProviderId::CryptoAuthLib, key_name)`. -/
structure KeyTriple : Type where
  app_name : String
  provider_id : ProviderId
  key_name : String
deriving DecidableEq

/-- The service-level response statuses the AEAD path produces or
propagates.  `Other` stands for any status propagated verbatim from the
key-info store or the validator (key-not-found, validation failures, ...). -/
inductive ResponseStatus : Type
  | PsaErrorNotSupported : ResponseStatus
  | PsaErrorGenericError : ResponseStatus
  | Other (code : Nat) : ResponseStatus
deriving DecidableEq

/-- Mirrors the fields of `rust_cryptoauthlib::AeadParam` that the AEAD
path populates.  `..Default::default()` leaves `tag` (encrypt) and
`tag_length` (decrypt) as `None`.  `tag_length` holds the value of the
Rust `u8` obtained by the `tag_length as u8` cast, hence a `Nat < 256`
in every state the code builds. -/
structure AeadParam : Type where
  nonce : List Nat
  tag : Option (List Nat)
  tag_length : Option Nat
  additional_data : Option (List Nat)
deriving DecidableEq

/-- Mirrors `rust_cryptoauthlib::AeadAlgorithm`. -/
inductive AeadAlgorithm : Type
  | Gcm (param : AeadParam) : AeadAlgorithm
  | Ccm (param : AeadParam) : AeadAlgorithm
deriving DecidableEq

/-- Key attributes are consumed only by the external validator; opaque here. -/
abbrev Attributes : Type := Nat

/-- Mirrors `psa_aead_encrypt::Operation`. -/
structure EncryptOp : Type where
  key_name : String
  alg : Aead
  nonce : List Nat
  additional_data : List Nat
  plaintext : List Nat
deriving DecidableEq

/-- Mirrors `psa_aead_decrypt::Operation`. -/
structure DecryptOp : Type where
  key_name : String
  alg : Aead
  nonce : List Nat
  additional_data : List Nat
  ciphertext : List Nat
deriving DecidableEq

/-- The provider together with its external collaborators.
`get_key_id` and `get_key_attributes` model the key-info store,
`validate_encrypt` / `validate_decrypt` the `op.validate(key_attributes)`
calls of the `parsec_interface` crate, and `device_aead_encrypt` /
`device_aead_decrypt` the `rust_cryptoauthlib` device.  The device
mutates the byte buffer in place and returns the tag (encrypt) or the
authentication flag (decrypt); the in-place mutation is modelled by
returning the new buffer contents alongside. -/
structure Provider : Type where
  get_key_id : KeyTriple → Except ResponseStatus Nat
  get_key_attributes : KeyTriple → Except ResponseStatus Attributes
  validate_encrypt : EncryptOp → Attributes → Except ResponseStatus Unit
  validate_decrypt : DecryptOp → Attributes → Except ResponseStatus Unit
  device_aead_encrypt : AeadAlgorithm → Nat → List Nat → Except Nat (List Nat × List Nat)
  device_aead_decrypt : AeadAlgorithm → Nat → List Nat → Except Nat (List Nat × Bool)

/-- Outcome of the decrypt operation: a plaintext, a service error, or a
Rust panic (the unchecked `usize` subtraction / out-of-range `drain`). -/
inductive DecOutcome : Type
  | ok (plaintext : List Nat) : DecOutcome
  | err (status : ResponseStatus) : DecOutcome
  | panic : DecOutcome
deriving DecidableEq

/-- `const DEFAULT_TAG_LENGTH: usize = 16;` -/
def DEFAULT_TAG_LENGTH : Nat := 16

/-- Mirrors `get_tag_length` of `aead.rs`: default-tag CCM/GCM resolve to
the fixed default, shortened-tag CCM/GCM pass the caller value through,
everything else is unsupported. -/
def get_tag_length : Aead → Option Nat
  | Aead.AeadWithDefaultLengthTag AeadWithDefaultLengthTag.Ccm => some DEFAULT_TAG_LENGTH
  | Aead.AeadWithDefaultLengthTag AeadWithDefaultLengthTag.Gcm => some DEFAULT_TAG_LENGTH
  | Aead.AeadWithShortenedTag AeadWithDefaultLengthTag.Ccm tag_length => some tag_length
  | Aead.AeadWithShortenedTag AeadWithDefaultLengthTag.Gcm tag_length => some tag_length
  | _ => none

/-- Mirrors `is_ccm_selected` of `aead.rs`: true exactly on the two CCM
descriptors. -/
def is_ccm_selected : Aead → Bool
  | Aead.AeadWithDefaultLengthTag AeadWithDefaultLengthTag.Ccm => true
  | Aead.AeadWithShortenedTag AeadWithDefaultLengthTag.Ccm _ => true
  | _ => false

/-- Mirrors the construction-selection block shared by both operations:
start from GCM and switch to CCM when `is_ccm_selected` holds (the CCM
branch uses the cloned parameter value, equal to the GCM one). -/
def select_algorithm (alg : Aead) (param : AeadParam) : AeadAlgorithm :=
  if is_ccm_selected alg then AeadAlgorithm.Ccm param else AeadAlgorithm.Gcm param

/-- The `AeadParam` built on the encrypt path: nonce and associated data
verbatim, `tag_length` from the resolver output cast to `u8`
(`tag_length as u8`, i.e. `% 256`), no tag value. -/
def encrypt_params (op : EncryptOp) (tag_length : Nat) : AeadParam :=
  { nonce := op.nonce
    tag := none
    tag_length := some (tag_length % 256)
    additional_data := some op.additional_data }

/-- The `AeadParam` built on the decrypt path: nonce and associated data
verbatim, tag drained from the tail of the ciphertext (the last
`tag_length` bytes), no tag-length field. -/
def decrypt_params (op : DecryptOp) (tag_length : Nat) : AeadParam :=
  { nonce := op.nonce
    tag := some (op.ciphertext.drop (op.ciphertext.length - tag_length))
    tag_length := none
    additional_data := some op.additional_data }

/-- Mirrors `Provider::psa_aead_encrypt_internal`.  The result on success
is the `ciphertext` field of `psa_aead_encrypt::Result`: the in-place
encrypted buffer with the device tag appended. -/
def psa_aead_encrypt_internal (p : Provider) (app_name : String)
    (op : EncryptOp) : Except ResponseStatus (List Nat) :=
  match get_tag_length op.alg with
  | some tag_length =>
      let key_triple : KeyTriple :=
        { app_name := app_name
          provider_id := ProviderId.CryptoAuthLib
          key_name := op.key_name }
      match p.get_key_id key_triple with
      | Except.error e => Except.error e
      | Except.ok key_id =>
        match p.get_key_attributes key_triple with
        | Except.error e => Except.error e
        | Except.ok key_attributes =>
          match p.validate_encrypt op key_attributes with
          | Except.error e => Except.error e
          | Except.ok _ =>
            let aead_algorithm := select_algorithm op.alg (encrypt_params op tag_length)
            match p.device_aead_encrypt aead_algorithm key_id op.plaintext with
            | Except.ok (ciphertext, tag) => Except.ok (ciphertext ++ tag)
            | Except.error _ => Except.error ResponseStatus.PsaErrorGenericError
  | none => Except.error ResponseStatus.PsaErrorNotSupported

/-- Mirrors `Provider::psa_aead_decrypt_internal`.  The drain
`ciphertext.drain((ciphertext.len() - tag_length)..)` splits off the last
`tag_length` bytes when `tag_length ≤ ciphertext.len()`; otherwise the
`usize` subtraction underflows and the Rust code panics
(`DecOutcome.panic`). -/
def psa_aead_decrypt_internal (p : Provider) (app_name : String)
    (op : DecryptOp) : DecOutcome :=
  match get_tag_length op.alg with
  | some tag_length =>
      let key_triple : KeyTriple :=
        { app_name := app_name
          provider_id := ProviderId.CryptoAuthLib
          key_name := op.key_name }
      match p.get_key_id key_triple with
      | Except.error e => DecOutcome.err e
      | Except.ok key_id =>
        match p.get_key_attributes key_triple with
        | Except.error e => DecOutcome.err e
        | Except.ok key_attributes =>
          match p.validate_decrypt op key_attributes with
          | Except.error e => DecOutcome.err e
          | Except.ok _ =>
            if tag_length ≤ op.ciphertext.length then
              let payload := op.ciphertext.take (op.ciphertext.length - tag_length)
              let aead_algorithm := select_algorithm op.alg (decrypt_params op tag_length)
              match p.device_aead_decrypt aead_algorithm key_id payload with
              | Except.ok (buffer, true) => DecOutcome.ok buffer
              | Except.ok (_, false) => DecOutcome.err ResponseStatus.PsaErrorGenericError
              | Except.error _ => DecOutcome.err ResponseStatus.PsaErrorGenericError
            else DecOutcome.panic
  | none => DecOutcome.err ResponseStatus.PsaErrorNotSupported

/-- A provider with trivially successful collaborators and an identity
device: encryption leaves the buffer unchanged and returns a 16-byte tag
of zeros, decryption leaves the buffer unchanged and reports the
authentication as verified.  Used to instantiate hypotheses at concrete
inputs. -/
def toyProvider : Provider where
  get_key_id _ := Except.ok 0
  get_key_attributes _ := Except.ok 0
  validate_encrypt _ _ := Except.ok ()
  validate_decrypt _ _ := Except.ok ()
  device_aead_encrypt _ _ buffer := Except.ok (buffer, List.replicate 16 0)
  device_aead_decrypt _ _ buffer := Except.ok (buffer, true)

/-- A provider whose device always fails: encryption reports a device
error, decryption reports success with the authentication flag false. -/
def failProvider : Provider where
  get_key_id _ := Except.ok 0
  get_key_attributes _ := Except.ok 0
  validate_encrypt _ _ := Except.ok ()
  validate_decrypt _ _ := Except.ok ()
  device_aead_encrypt _ _ _ := Except.error 1
  device_aead_decrypt _ _ buffer := Except.ok (buffer, false)

/-- Helper: once the resolver and the three collaborator calls succeed,
the encrypt operation is the device call on the built parameters, with
the tag appended on success and `PsaErrorGenericError` on device error. -/
theorem encrypt_device_step (p : Provider) (app : String) (op : EncryptOp)
    (tag_length key_id : Nat) (attrs : Attributes)
    (htl : get_tag_length op.alg = some tag_length)
    (hkid : p.get_key_id
      { app_name := app, provider_id := ProviderId.CryptoAuthLib,
        key_name := op.key_name } = Except.ok key_id)
    (hattr : p.get_key_attributes
      { app_name := app, provider_id := ProviderId.CryptoAuthLib,
        key_name := op.key_name } = Except.ok attrs)
    (hval : p.validate_encrypt op attrs = Except.ok ()) :
    psa_aead_encrypt_internal p app op =
      match p.device_aead_encrypt
          (select_algorithm op.alg (encrypt_params op tag_length))
          key_id op.plaintext with
      | Except.ok (ciphertext, tag) => Except.ok (ciphertext ++ tag)
      | Except.error _ => Except.error ResponseStatus.PsaErrorGenericError := by
  simp only [psa_aead_encrypt_internal, htl, hkid, hattr, hval]

/-- Helper: once the resolver and the three collaborator calls succeed
and the ciphertext is at least as long as the tag, the decrypt operation
is the device call on the split payload with the built parameters. -/
theorem decrypt_device_step (p : Provider) (app : String) (op : DecryptOp)
    (tag_length key_id : Nat) (attrs : Attributes)
    (htl : get_tag_length op.alg = some tag_length)
    (hkid : p.get_key_id
      { app_name := app, provider_id := ProviderId.CryptoAuthLib,
        key_name := op.key_name } = Except.ok key_id)
    (hattr : p.get_key_attributes
      { app_name := app, provider_id := ProviderId.CryptoAuthLib,
        key_name := op.key_name } = Except.ok attrs)
    (hval : p.validate_decrypt op attrs = Except.ok ())
    (hlen : tag_length ≤ op.ciphertext.length) :
    psa_aead_decrypt_internal p app op =
      match p.device_aead_decrypt
          (select_algorithm op.alg (decrypt_params op tag_length))
          key_id (op.ciphertext.take (op.ciphertext.length - tag_length)) with
      | Except.ok (buffer, true) => DecOutcome.ok buffer
      | Except.ok (_, false) => DecOutcome.err ResponseStatus.PsaErrorGenericError
      | Except.error _ => DecOutcome.err ResponseStatus.PsaErrorGenericError := by
  simp only [psa_aead_decrypt_internal, htl, hkid, hattr, hval, if_pos hlen]

/-- C3: tag-length resolution returns `some 16` for default-tag CCM and
GCM, returns exactly the caller-specified length for shortened-tag CCM
and GCM, and returns `none` for every other descriptor (the remaining
descriptors are the two Chacha20-Poly1305 forms). -/
theorem get_tag_length_complete_spec :
    get_tag_length (Aead.AeadWithDefaultLengthTag AeadWithDefaultLengthTag.Ccm) = some 16 ∧
    get_tag_length (Aead.AeadWithDefaultLengthTag AeadWithDefaultLengthTag.Gcm) = some 16 ∧
    (∀ tag_length : Nat,
      get_tag_length (Aead.AeadWithShortenedTag AeadWithDefaultLengthTag.Ccm tag_length) =
        some tag_length ∧
      get_tag_length (Aead.AeadWithShortenedTag AeadWithDefaultLengthTag.Gcm tag_length) =
        some tag_length) ∧
    get_tag_length (Aead.AeadWithDefaultLengthTag AeadWithDefaultLengthTag.Chacha20Poly1305) =
      none ∧
    (∀ tag_length : Nat,
      get_tag_length
        (Aead.AeadWithShortenedTag AeadWithDefaultLengthTag.Chacha20Poly1305 tag_length) =
        none) :=
  ⟨rfl, rfl, fun _ => ⟨rfl, rfl⟩, rfl, fun _ => rfl⟩

/-- C6: `is_ccm_selected` is true exactly on the two CCM descriptors and
false on every other descriptor, so GCM is the default branch. -/
theorem is_ccm_selected_complete_spec :
    is_ccm_selected (Aead.AeadWithDefaultLengthTag AeadWithDefaultLengthTag.Ccm) = true ∧
    (∀ tag_length : Nat,
      is_ccm_selected (Aead.AeadWithShortenedTag AeadWithDefaultLengthTag.Ccm tag_length) =
        true) ∧
    is_ccm_selected (Aead.AeadWithDefaultLengthTag AeadWithDefaultLengthTag.Gcm) = false ∧
    is_ccm_selected (Aead.AeadWithDefaultLengthTag AeadWithDefaultLengthTag.Chacha20Poly1305) =
      false ∧
    (∀ tag_length : Nat,
      is_ccm_selected (Aead.AeadWithShortenedTag AeadWithDefaultLengthTag.Gcm tag_length) =
        false ∧
      is_ccm_selected
        (Aead.AeadWithShortenedTag AeadWithDefaultLengthTag.Chacha20Poly1305 tag_length) =
        false) :=
  ⟨rfl, fun _ => rfl, rfl, rfl, fun _ => ⟨rfl, rfl⟩⟩

/-- C5: a descriptor outside the CCM/GCM families is rejected with
`PsaErrorNotSupported` on both operations, for every possible behaviour
of the key-info store, the validator and the device — so none of those
collaborators is consulted. -/
theorem unsupported_algorithm_rejected (p : Provider) (app : String)
    (ope : EncryptOp) (opd : DecryptOp)
    (he : ope.alg = Aead.AeadWithDefaultLengthTag AeadWithDefaultLengthTag.Chacha20Poly1305 ∨
      ∃ tag_length, ope.alg =
        Aead.AeadWithShortenedTag AeadWithDefaultLengthTag.Chacha20Poly1305 tag_length)
    (hd : opd.alg = Aead.AeadWithDefaultLengthTag AeadWithDefaultLengthTag.Chacha20Poly1305 ∨
      ∃ tag_length, opd.alg =
        Aead.AeadWithShortenedTag AeadWithDefaultLengthTag.Chacha20Poly1305 tag_length) :
    psa_aead_encrypt_internal p app ope = Except.error ResponseStatus.PsaErrorNotSupported ∧
    psa_aead_decrypt_internal p app opd = DecOutcome.err ResponseStatus.PsaErrorNotSupported := by
  have he' : get_tag_length ope.alg = none := by
    rcases he with h | ⟨tag_length, h⟩ <;> rw [h] <;> rfl
  have hd' : get_tag_length opd.alg = none := by
    rcases hd with h | ⟨tag_length, h⟩ <;> rw [h] <;> rfl
  constructor
  · simp only [psa_aead_encrypt_internal, he']
  · simp only [psa_aead_decrypt_internal, hd']

/-- Witness for C5 at a concrete Chacha20-Poly1305 request. -/
theorem unsupported_algorithm_rejected_witness :
    psa_aead_encrypt_internal toyProvider "app"
      { key_name := "k"
        alg := Aead.AeadWithDefaultLengthTag AeadWithDefaultLengthTag.Chacha20Poly1305
        nonce := [1], additional_data := [], plaintext := [2] } =
      Except.error ResponseStatus.PsaErrorNotSupported ∧
    psa_aead_decrypt_internal toyProvider "app"
      { key_name := "k"
        alg := Aead.AeadWithShortenedTag AeadWithDefaultLengthTag.Chacha20Poly1305 8
        nonce := [1], additional_data := [], ciphertext := [2] } =
      DecOutcome.err ResponseStatus.PsaErrorNotSupported :=
  unsupported_algorithm_rejected toyProvider "app" _ _ (Or.inl rfl) (Or.inr ⟨8, rfl⟩)

/-- C2 (code bug): when the ciphertext is shorter than the resolved tag
length and the request reaches the split, the operation does not return
an error — the unchecked `ciphertext.len() - tag_length` subtraction
underflows and the Rust code panics. -/
theorem short_ciphertext_is_panic_not_error (p : Provider) (app : String)
    (op : DecryptOp) (tag_length key_id : Nat) (attrs : Attributes)
    (htl : get_tag_length op.alg = some tag_length)
    (hkid : p.get_key_id
      { app_name := app, provider_id := ProviderId.CryptoAuthLib,
        key_name := op.key_name } = Except.ok key_id)
    (hattr : p.get_key_attributes
      { app_name := app, provider_id := ProviderId.CryptoAuthLib,
        key_name := op.key_name } = Except.ok attrs)
    (hval : p.validate_decrypt op attrs = Except.ok ())
    (hshort : op.ciphertext.length < tag_length) :
    psa_aead_decrypt_internal p app op = DecOutcome.panic := by
  simp only [psa_aead_decrypt_internal, htl, hkid, hattr, hval,
    if_neg (Nat.not_le_of_lt hshort)]

/-- Witness for C2: a 3-byte ciphertext under default-tag GCM
(tag length 16) panics instead of returning an error. -/
theorem short_ciphertext_is_panic_not_error_witness :
    psa_aead_decrypt_internal toyProvider "app"
      { key_name := "k"
        alg := Aead.AeadWithDefaultLengthTag AeadWithDefaultLengthTag.Gcm
        nonce := List.replicate 12 1
        additional_data := []
        ciphertext := [1, 2, 3] } = DecOutcome.panic :=
  short_ciphertext_is_panic_not_error toyProvider "app" _ 16 0 0 rfl rfl rfl rfl
    (by decide)

/-- C7: when the device encrypt call succeeds, the result ciphertext is
exactly the device-produced encrypted bytes followed by the returned
tag; when the device preserves the buffer length and returns a tag of
the resolved length, the ciphertext length is plaintext length plus tag
length. -/
theorem encrypt_appends_tag_to_payload (p : Provider) (app : String)
    (op : EncryptOp) (tag_length key_id : Nat) (attrs : Attributes)
    (encrypted tag : List Nat)
    (htl : get_tag_length op.alg = some tag_length)
    (hkid : p.get_key_id
      { app_name := app, provider_id := ProviderId.CryptoAuthLib,
        key_name := op.key_name } = Except.ok key_id)
    (hattr : p.get_key_attributes
      { app_name := app, provider_id := ProviderId.CryptoAuthLib,
        key_name := op.key_name } = Except.ok attrs)
    (hval : p.validate_encrypt op attrs = Except.ok ())
    (hdev : p.device_aead_encrypt
        (select_algorithm op.alg (encrypt_params op tag_length))
        key_id op.plaintext = Except.ok (encrypted, tag)) :
    psa_aead_encrypt_internal p app op = Except.ok (encrypted ++ tag) ∧
    (encrypted.length = op.plaintext.length → tag.length = tag_length →
      (encrypted ++ tag).length = op.plaintext.length + tag_length) := by
  constructor
  · rw [encrypt_device_step p app op tag_length key_id attrs htl hkid hattr hval, hdev]
  · intro h1 h2
    rw [List.length_append, h1, h2]

/-- Witness for C7: the spec example — GCM with default tag, 12-byte
nonce, empty associated data, 5-byte plaintext gives a 21-byte
ciphertext (payload followed by the 16-byte tag). -/
theorem encrypt_appends_tag_to_payload_witness :
    psa_aead_encrypt_internal toyProvider "app"
      { key_name := "k"
        alg := Aead.AeadWithDefaultLengthTag AeadWithDefaultLengthTag.Gcm
        nonce := List.replicate 12 1
        additional_data := []
        plaintext := [104, 101, 108, 108, 111] } =
      Except.ok ([104, 101, 108, 108, 111] ++ List.replicate 16 0) ∧
    (([104, 101, 108, 108, 111] ++ List.replicate 16 0) : List Nat).length = 5 + 16 := by
  have h := encrypt_appends_tag_to_payload toyProvider "app"
    { key_name := "k"
      alg := Aead.AeadWithDefaultLengthTag AeadWithDefaultLengthTag.Gcm
      nonce := List.replicate 12 1
      additional_data := []
      plaintext := [104, 101, 108, 108, 111] }
    16 0 0 [104, 101, 108, 108, 111] (List.replicate 16 0)
    rfl rfl rfl rfl rfl
  exact ⟨h.1, h.2 rfl rfl⟩

/-- C9: the parameters handed to the device are, on encrypt, the record
carrying the request nonce verbatim, no tag, the resolved tag length
(cast to `u8`) and the associated data verbatim; on decrypt, the record
carrying the nonce verbatim, the last resolved-tag-length bytes of the
ciphertext as tag, no tag-length field and the associated data verbatim. -/
theorem device_parameters_as_specified (p : Provider) (app : String)
    (ope : EncryptOp) (opd : DecryptOp)
    (tle tld ke kd : Nat) (ae aD : Attributes)
    (htle : get_tag_length ope.alg = some tle)
    (hke : p.get_key_id
      { app_name := app, provider_id := ProviderId.CryptoAuthLib,
        key_name := ope.key_name } = Except.ok ke)
    (hae : p.get_key_attributes
      { app_name := app, provider_id := ProviderId.CryptoAuthLib,
        key_name := ope.key_name } = Except.ok ae)
    (hve : p.validate_encrypt ope ae = Except.ok ())
    (htld : get_tag_length opd.alg = some tld)
    (hkd : p.get_key_id
      { app_name := app, provider_id := ProviderId.CryptoAuthLib,
        key_name := opd.key_name } = Except.ok kd)
    (haD : p.get_key_attributes
      { app_name := app, provider_id := ProviderId.CryptoAuthLib,
        key_name := opd.key_name } = Except.ok aD)
    (hvd : p.validate_decrypt opd aD = Except.ok ())
    (hlen : tld ≤ opd.ciphertext.length) :
    psa_aead_encrypt_internal p app ope =
      (match p.device_aead_encrypt
          (select_algorithm ope.alg
            { nonce := ope.nonce
              tag := none
              tag_length := some (tle % 256)
              additional_data := some ope.additional_data })
          ke ope.plaintext with
        | Except.ok (ciphertext, tag) => Except.ok (ciphertext ++ tag)
        | Except.error _ => Except.error ResponseStatus.PsaErrorGenericError) ∧
    psa_aead_decrypt_internal p app opd =
      (match p.device_aead_decrypt
          (select_algorithm opd.alg
            { nonce := opd.nonce
              tag := some (opd.ciphertext.drop (opd.ciphertext.length - tld))
              tag_length := none
              additional_data := some opd.additional_data })
          kd (opd.ciphertext.take (opd.ciphertext.length - tld)) with
        | Except.ok (buffer, true) => DecOutcome.ok buffer
        | Except.ok (_, false) => DecOutcome.err ResponseStatus.PsaErrorGenericError
        | Except.error _ => DecOutcome.err ResponseStatus.PsaErrorGenericError) ∧
    (opd.ciphertext.drop (opd.ciphertext.length - tld)).length = tld := by
  refine ⟨encrypt_device_step p app ope tle ke ae htle hke hae hve,
    decrypt_device_step p app opd tld kd aD htld hkd haD hvd hlen, ?_⟩
  rw [List.length_drop]
  omega

/-- Witness for C9 at a concrete GCM request pair. -/
theorem device_parameters_as_specified_witness :
    psa_aead_encrypt_internal toyProvider "app"
      { key_name := "k"
        alg := Aead.AeadWithDefaultLengthTag AeadWithDefaultLengthTag.Gcm
        nonce := List.replicate 12 1
        additional_data := [7]
        plaintext := [104, 101, 108, 108, 111] } =
      Except.ok ([104, 101, 108, 108, 111] ++ List.replicate 16 0) ∧
    psa_aead_decrypt_internal toyProvider "app"
      { key_name := "k"
        alg := Aead.AeadWithDefaultLengthTag AeadWithDefaultLengthTag.Gcm
        nonce := List.replicate 12 1
        additional_data := [7]
        ciphertext := [104, 101, 108, 108, 111] ++ List.replicate 16 0 } =
      DecOutcome.ok [104, 101, 108, 108, 111] ∧
    ((([104, 101, 108, 108, 111] ++ List.replicate 16 0) : List Nat).drop
      ((([104, 101, 108, 108, 111] ++ List.replicate 16 0) : List Nat).length - 16)).length =
      16 := by
  have h := device_parameters_as_specified toyProvider "app"
    { key_name := "k"
      alg := Aead.AeadWithDefaultLengthTag AeadWithDefaultLengthTag.Gcm
      nonce := List.replicate 12 1
      additional_data := [7]
      plaintext := [104, 101, 108, 108, 111] }
    { key_name := "k"
      alg := Aead.AeadWithDefaultLengthTag AeadWithDefaultLengthTag.Gcm
      nonce := List.replicate 12 1
      additional_data := [7]
      ciphertext := [104, 101, 108, 108, 111] ++ List.replicate 16 0 }
    16 16 0 0 0 0 rfl rfl rfl rfl rfl rfl rfl rfl (by decide)
  exact ⟨h.1, h.2.1, h.2.2⟩

/-- C10: when the ciphertext length equals the resolved tag length, the
payload handed to the device is empty and the whole ciphertext becomes
the tag parameter; a verified device success then yields an empty
plaintext. -/
theorem exact_tag_length_ciphertext_empty_payload (p : Provider) (app : String)
    (op : DecryptOp) (tag_length key_id : Nat) (attrs : Attributes)
    (htl : get_tag_length op.alg = some tag_length)
    (hkid : p.get_key_id
      { app_name := app, provider_id := ProviderId.CryptoAuthLib,
        key_name := op.key_name } = Except.ok key_id)
    (hattr : p.get_key_attributes
      { app_name := app, provider_id := ProviderId.CryptoAuthLib,
        key_name := op.key_name } = Except.ok attrs)
    (hval : p.validate_decrypt op attrs = Except.ok ())
    (hct : op.ciphertext.length = tag_length)
    (hdev : p.device_aead_decrypt
        (select_algorithm op.alg
          { nonce := op.nonce
            tag := some op.ciphertext
            tag_length := none
            additional_data := some op.additional_data })
        key_id [] = Except.ok ([], true)) :
    op.ciphertext.take (op.ciphertext.length - tag_length) = [] ∧
    (decrypt_params op tag_length).tag = some op.ciphertext ∧
    psa_aead_decrypt_internal p app op = DecOutcome.ok [] := by
  have hz : op.ciphertext.length - tag_length = 0 := by omega
  have h1 : decrypt_params op tag_length =
      { nonce := op.nonce
        tag := some op.ciphertext
        tag_length := none
        additional_data := some op.additional_data } := by
    rw [decrypt_params, hz, List.drop_zero]
  have h2 : op.ciphertext.take (op.ciphertext.length - tag_length) = [] := by
    rw [hz, List.take_zero]
  refine ⟨h2, by rw [h1], ?_⟩
  rw [decrypt_device_step p app op tag_length key_id attrs htl hkid hattr hval
    (le_of_eq hct.symm), h1, h2, hdev]

/-- Witness for C10: a 16-byte ciphertext under default-tag GCM decrypts
to the empty plaintext when the device verifies the tag. -/
theorem exact_tag_length_ciphertext_empty_payload_witness :
    (List.replicate 16 2 : List Nat).take ((List.replicate 16 2 : List Nat).length - 16) = [] ∧
    (decrypt_params
      { key_name := "k"
        alg := Aead.AeadWithDefaultLengthTag AeadWithDefaultLengthTag.Gcm
        nonce := List.replicate 12 1
        additional_data := []
        ciphertext := List.replicate 16 2 } 16).tag = some (List.replicate 16 2) ∧
    psa_aead_decrypt_internal toyProvider "app"
      { key_name := "k"
        alg := Aead.AeadWithDefaultLengthTag AeadWithDefaultLengthTag.Gcm
        nonce := List.replicate 12 1
        additional_data := []
        ciphertext := List.replicate 16 2 } = DecOutcome.ok [] :=
  exact_tag_length_ciphertext_empty_payload toyProvider "app"
    { key_name := "k"
      alg := Aead.AeadWithDefaultLengthTag AeadWithDefaultLengthTag.Gcm
      nonce := List.replicate 12 1
      additional_data := []
      ciphertext := List.replicate 16 2 }
    16 0 0 rfl rfl rfl rfl (by decide) rfl

/-- C4: an authentication failure on decrypt, a device error on decrypt
and a device error on encrypt are all reported as the single opaque code
`PsaErrorGenericError`. -/
theorem device_failures_one_opaque_code (p : Provider) (app : String)
    (opd : DecryptOp) (ope : EncryptOp)
    (tld tle kd ke : Nat) (aD ae : Attributes)
    (buffer : List Nat) (edec eenc : Nat)
    (htld : get_tag_length opd.alg = some tld)
    (hkd : p.get_key_id
      { app_name := app, provider_id := ProviderId.CryptoAuthLib,
        key_name := opd.key_name } = Except.ok kd)
    (haD : p.get_key_attributes
      { app_name := app, provider_id := ProviderId.CryptoAuthLib,
        key_name := opd.key_name } = Except.ok aD)
    (hvd : p.validate_decrypt opd aD = Except.ok ())
    (hlen : tld ≤ opd.ciphertext.length)
    (htle : get_tag_length ope.alg = some tle)
    (hke : p.get_key_id
      { app_name := app, provider_id := ProviderId.CryptoAuthLib,
        key_name := ope.key_name } = Except.ok ke)
    (hae : p.get_key_attributes
      { app_name := app, provider_id := ProviderId.CryptoAuthLib,
        key_name := ope.key_name } = Except.ok ae)
    (hve : p.validate_encrypt ope ae = Except.ok ())
    (hd : p.device_aead_decrypt
        (select_algorithm opd.alg (decrypt_params opd tld)) kd
        (opd.ciphertext.take (opd.ciphertext.length - tld)) = Except.ok (buffer, false) ∨
      p.device_aead_decrypt
        (select_algorithm opd.alg (decrypt_params opd tld)) kd
        (opd.ciphertext.take (opd.ciphertext.length - tld)) = Except.error edec)
    (he : p.device_aead_encrypt
        (select_algorithm ope.alg (encrypt_params ope tle)) ke ope.plaintext =
      Except.error eenc) :
    psa_aead_decrypt_internal p app opd =
      DecOutcome.err ResponseStatus.PsaErrorGenericError ∧
    psa_aead_encrypt_internal p app ope =
      Except.error ResponseStatus.PsaErrorGenericError := by
  constructor
  · rw [decrypt_device_step p app opd tld kd aD htld hkd haD hvd hlen]
    rcases hd with h | h <;> rw [h]
  · rw [encrypt_device_step p app ope tle ke ae htle hke hae hve, he]

/-- Witness for C4: with `failProvider` a decrypt authentication failure
and an encrypt device error both surface as `PsaErrorGenericError`. -/
theorem device_failures_one_opaque_code_witness :
    psa_aead_decrypt_internal failProvider "app"
      { key_name := "k"
        alg := Aead.AeadWithDefaultLengthTag AeadWithDefaultLengthTag.Gcm
        nonce := List.replicate 12 1
        additional_data := []
        ciphertext := List.replicate 16 3 } =
      DecOutcome.err ResponseStatus.PsaErrorGenericError ∧
    psa_aead_encrypt_internal failProvider "app"
      { key_name := "k"
        alg := Aead.AeadWithDefaultLengthTag AeadWithDefaultLengthTag.Gcm
        nonce := List.replicate 12 1
        additional_data := []
        plaintext := [104, 101, 108, 108, 111] } =
      Except.error ResponseStatus.PsaErrorGenericError :=
  device_failures_one_opaque_code failProvider "app"
    { key_name := "k"
      alg := Aead.AeadWithDefaultLengthTag AeadWithDefaultLengthTag.Gcm
      nonce := List.replicate 12 1
      additional_data := []
      ciphertext := List.replicate 16 3 }
    { key_name := "k"
      alg := Aead.AeadWithDefaultLengthTag AeadWithDefaultLengthTag.Gcm
      nonce := List.replicate 12 1
      additional_data := []
      plaintext := [104, 101, 108, 108, 111] }
    16 16 0 0 0 0 [] 0 1
    rfl rfl rfl rfl (by decide) rfl rfl rfl rfl (Or.inl rfl) rfl

/-- C8 fails as stated: for the shortened-tag GCM descriptor with caller
tag length 300 the resolver returns 300 and the decrypt split removes
300 bytes, but the encrypt parameters carry the `u8`-cast value
`300 % 256 = 44`, so the two tag lengths are not identical. -/
theorem tag_length_cast_counterexample :
    get_tag_length (Aead.AeadWithShortenedTag AeadWithDefaultLengthTag.Gcm 300) =
      some 300 ∧
    (encrypt_params
      { key_name := "k"
        alg := Aead.AeadWithShortenedTag AeadWithDefaultLengthTag.Gcm 300
        nonce := []
        additional_data := []
        plaintext := [] } 300).tag_length = some 44 ∧
    some (44 : Nat) ≠ some (300 : Nat) ∧
    (((decrypt_params
      { key_name := "k"
        alg := Aead.AeadWithShortenedTag AeadWithDefaultLengthTag.Gcm 300
        nonce := []
        additional_data := []
        ciphertext := List.replicate 300 0 } 300).tag).getD []).length = 300 := by
  refine ⟨rfl, rfl, by decide, ?_⟩
  simp only [decrypt_params, Option.getD_some, List.length_drop, List.length_replicate]

/-- C8 amended: whenever the resolved tag length fits in a byte (which
holds for every tag length the hardware accepts), the tag length in the
encrypt parameters, the resolver output on the decrypt side and the
number of bytes the decrypt split removes from the ciphertext tail all
coincide; the split point is derived solely from the resolved tag
length. -/
theorem tag_length_consistent_across_paths (ope : EncryptOp) (opd : DecryptOp)
    (tag_length : Nat)
    (halg : ope.alg = opd.alg)
    (htl : get_tag_length ope.alg = some tag_length)
    (hbyte : tag_length < 256)
    (hlen : tag_length ≤ opd.ciphertext.length) :
    (encrypt_params ope tag_length).tag_length = some tag_length ∧
    get_tag_length opd.alg = some tag_length ∧
    (decrypt_params opd tag_length).tag =
      some (opd.ciphertext.drop (opd.ciphertext.length - tag_length)) ∧
    (((decrypt_params opd tag_length).tag).getD []).length = tag_length := by
  refine ⟨?_, by rw [← halg, htl], rfl, ?_⟩
  · rw [encrypt_params]
    simp only [Nat.mod_eq_of_lt hbyte]
  · simp only [decrypt_params, Option.getD_some, List.length_drop]
    omega

/-- Witness for the amended C8 at shortened-tag CCM with tag length 4. -/
theorem tag_length_consistent_across_paths_witness :
    (encrypt_params
      { key_name := "k"
        alg := Aead.AeadWithShortenedTag AeadWithDefaultLengthTag.Ccm 4
        nonce := [1]
        additional_data := []
        plaintext := [2] } 4).tag_length = some 4 ∧
    get_tag_length (Aead.AeadWithShortenedTag AeadWithDefaultLengthTag.Ccm 4) = some 4 ∧
    (decrypt_params
      { key_name := "k"
        alg := Aead.AeadWithShortenedTag AeadWithDefaultLengthTag.Ccm 4
        nonce := [1]
        additional_data := []
        ciphertext := List.replicate 8 5 } 4).tag =
      some ((List.replicate 8 5 : List Nat).drop ((List.replicate 8 5 : List Nat).length - 4)) ∧
    (((decrypt_params
      { key_name := "k"
        alg := Aead.AeadWithShortenedTag AeadWithDefaultLengthTag.Ccm 4
        nonce := [1]
        additional_data := []
        ciphertext := List.replicate 8 5 } 4).tag).getD []).length = 4 :=
  tag_length_consistent_across_paths
    { key_name := "k"
      alg := Aead.AeadWithShortenedTag AeadWithDefaultLengthTag.Ccm 4
      nonce := [1]
      additional_data := []
      plaintext := [2] }
    { key_name := "k"
      alg := Aead.AeadWithShortenedTag AeadWithDefaultLengthTag.Ccm 4
      nonce := [1]
      additional_data := []
      ciphertext := List.replicate 8 5 }
    4 rfl rfl (by decide) (by decide)

/-- C1: round trip.  If the device's authenticated decrypt inverts its
authenticated encrypt (returning a tag of the resolved length and
verifying that tag on the matching parameters), then decrypting a
ciphertext produced by `psa_aead_encrypt_internal` with the same key,
nonce, associated data and algorithm returns exactly the original
plaintext, for any CCM or GCM descriptor (default or shortened tag). -/
theorem aead_encrypt_decrypt_round_trip (p : Provider) (app key_name : String)
    (alg : Aead) (nonce additional_data plaintext C : List Nat)
    (tag_length key_id : Nat) (attrs : Attributes)
    (htl : get_tag_length alg = some tag_length)
    (hkid : p.get_key_id
      { app_name := app, provider_id := ProviderId.CryptoAuthLib,
        key_name := key_name } = Except.ok key_id)
    (hattr : p.get_key_attributes
      { app_name := app, provider_id := ProviderId.CryptoAuthLib,
        key_name := key_name } = Except.ok attrs)
    (hve : p.validate_encrypt
      { key_name := key_name, alg := alg, nonce := nonce,
        additional_data := additional_data, plaintext := plaintext } attrs =
      Except.ok ())
    (hvd : p.validate_decrypt
      { key_name := key_name, alg := alg, nonce := nonce,
        additional_data := additional_data, ciphertext := C } attrs =
      Except.ok ())
    (hinv : ∀ pt ct tg : List Nat,
      p.device_aead_encrypt
        (select_algorithm alg
          { nonce := nonce
            tag := none
            tag_length := some (tag_length % 256)
            additional_data := some additional_data })
        key_id pt = Except.ok (ct, tg) →
      tg.length = tag_length ∧
      p.device_aead_decrypt
        (select_algorithm alg
          { nonce := nonce
            tag := some tg
            tag_length := none
            additional_data := some additional_data })
        key_id ct = Except.ok (pt, true))
    (henc : psa_aead_encrypt_internal p app
      { key_name := key_name, alg := alg, nonce := nonce,
        additional_data := additional_data, plaintext := plaintext } =
      Except.ok C) :
    psa_aead_decrypt_internal p app
      { key_name := key_name, alg := alg, nonce := nonce,
        additional_data := additional_data, ciphertext := C } =
      DecOutcome.ok plaintext := by
  rw [encrypt_device_step p app
    { key_name := key_name, alg := alg, nonce := nonce,
      additional_data := additional_data, plaintext := plaintext }
    tag_length key_id attrs htl hkid hattr hve] at henc
  rcases hE : p.device_aead_encrypt
      (select_algorithm alg
        (encrypt_params
          { key_name := key_name, alg := alg, nonce := nonce,
            additional_data := additional_data, plaintext := plaintext }
          tag_length))
      key_id plaintext with e | ⟨ct, tg⟩
  · rw [hE] at henc
    simp at henc
  · rw [hE] at henc
    simp only [Except.ok.injEq] at henc
    obtain ⟨htg, hdec⟩ := hinv plaintext ct tg hE
    have hC : C = ct ++ tg := henc.symm
    have hClen : C.length = ct.length + tag_length := by
      rw [hC, List.length_append, htg]
    have hlen : tag_length ≤ C.length := by omega
    rw [decrypt_device_step p app
      { key_name := key_name, alg := alg, nonce := nonce,
        additional_data := additional_data, ciphertext := C }
      tag_length key_id attrs htl hkid hattr hvd hlen]
    have hsplit : C.length - tag_length = ct.length := by omega
    have htake : C.take (C.length - tag_length) = ct := by
      rw [hsplit, hC]
      exact List.take_left ct tg
    have hdrop : C.drop (C.length - tag_length) = tg := by
      rw [hsplit, hC]
      exact List.drop_left ct tg
    have hparams : decrypt_params
        { key_name := key_name, alg := alg, nonce := nonce,
          additional_data := additional_data, ciphertext := C } tag_length =
        { nonce := nonce
          tag := some tg
          tag_length := none
          additional_data := some additional_data } := by
      rw [decrypt_params]
      simp only
      rw [hdrop]
    simp only
    rw [hparams, htake, hdec]

/-- Witness for C1: with the identity toy device, the 5-byte plaintext
encrypted under default-tag GCM round-trips through decrypt. -/
theorem aead_encrypt_decrypt_round_trip_witness :
    psa_aead_decrypt_internal toyProvider "app"
      { key_name := "k"
        alg := Aead.AeadWithDefaultLengthTag AeadWithDefaultLengthTag.Gcm
        nonce := List.replicate 12 1
        additional_data := []
        ciphertext := [104, 101, 108, 108, 111] ++ List.replicate 16 0 } =
      DecOutcome.ok [104, 101, 108, 108, 111] :=
  aead_encrypt_decrypt_round_trip toyProvider "app" "k"
    (Aead.AeadWithDefaultLengthTag AeadWithDefaultLengthTag.Gcm)
    (List.replicate 12 1) [] [104, 101, 108, 108, 111]
    ([104, 101, 108, 108, 111] ++ List.replicate 16 0)
    16 0 0 rfl rfl rfl rfl rfl
    (by
      intro pt ct tg h
      injection h with h1
      injection h1 with hct htg
      subst hct
      subst htg
      exact ⟨by decide, rfl⟩)
    rfl
